/-
Verification of the rumi-bot persistence core (context_manager.py).

The database of `ContextManager` is modelled as an explicit state value:
each SQLite table becomes a list of rows, the per-user partition tables
become an association list from table name to a table value, and the
AUTOINCREMENT sequences become explicit counters.  Timestamps are integers
(seconds); `datetime.utcnow()` becomes an explicit `now` argument, with
`timedelta(hours=h)` = `h * 3600` seconds and `timedelta(days=d)` =
`d * 86400` seconds.  Each operation of the class becomes a pure function
on that state, translated statement by statement from the Python source.
-/
import Mathlib

namespace RumiBot

/-- Row of the `guilds` table (context_manager.py, init_database). -/
structure GuildRow where
  guild_id : String
  guild_name : String
  created_at : Int
  last_activity : Int
deriving DecidableEq

/-- Row of the `channels` table. -/
structure ChannelRow where
  channel_id : String
  guild_id : String
  channel_name : String
  channel_type : Option String
  created_at : Int
deriving DecidableEq

/-- Row of the `users` table (master user registry). -/
structure UserRow where
  user_id : String
  username : String
  display_name : String
  first_seen : Int
  last_seen : Int
  total_messages : Nat
deriving DecidableEq

/-- Row of the unified `messages` ledger table. -/
structure MessageRow where
  id : Nat
  user_id : String
  guild_id : String
  channel_id : String
  content : String
  timestamp : Int
  message_type : String
  reply_to_id : Option Nat
  edited_at : Option Int
  word_count : Nat
deriving DecidableEq

/-- Row of a per-user partition table `user_messages_{safe_user_id}`. -/
structure PartitionRow where
  id : Nat
  message_id : Nat
  guild_id : String
  channel_id : String
  content : String
  timestamp : Int
  word_count : Nat
  reply_to_id : Option Nat
deriving DecidableEq

/-- A per-user partition table together with its AUTOINCREMENT counter. -/
structure PartitionTable where
  next_id : Nat
  rows : List PartitionRow
deriving DecidableEq

/-- Row of the `context_summaries` table. -/
structure SummaryRow where
  id : Nat
  guild_id : String
  channel_id : String
  summary : String
  message_count : Nat
  start_time : Int
  end_time : Int
  created_at : Int
deriving DecidableEq

/-- Row of the `user_profiles` table (UNIQUE(user_id, guild_id)). -/
structure ProfileRow where
  user_id : String
  guild_id : String
  personality_notes : Option String
  common_topics : Option (List String)
  interaction_style : Option String
  message_count : Nat
  analysis_date : Int
deriving DecidableEq

/-- The whole SQLite database file of ContextManager: the fixed tables of
init_database plus the dynamically created `user_messages_%` partition
tables (an association list keyed by table name). -/
structure DB where
  guilds : List GuildRow
  channels : List ChannelRow
  users : List UserRow
  messages : List MessageRow
  next_message_id : Nat
  partitions : List (String × PartitionTable)
  summaries : List SummaryRow
  next_summary_id : Nat
  profiles : List ProfileRow
deriving DecidableEq

/-- The freshly initialised database (init_database on a new file): all
tables empty, AUTOINCREMENT sequences starting at 1. -/
def emptyDB : DB :=
  { guilds := [], channels := [], users := [], messages := [],
    next_message_id := 1, partitions := [], summaries := [],
    next_summary_id := 1, profiles := [] }

/-- Lookup of a partition table by name, as `SELECT name FROM sqlite_master
WHERE type='table' AND name=?` followed by reads of that table. -/
def assocFind (tbl : String) : List (String × PartitionTable) → Option PartitionTable
  | [] => none
  | (k, v) :: rest => if k = tbl then some v else assocFind tbl rest

/-- In-place modification of the named partition table (first match). -/
def assocModify (tbl : String) (f : PartitionTable → PartitionTable) :
    List (String × PartitionTable) → List (String × PartitionTable)
  | [] => []
  | (k, v) :: rest =>
      if k = tbl then (k, f v) :: rest else (k, v) :: assocModify tbl f rest

/-- The rows of the named partition table (empty when the table has not
been created yet). -/
def partRows (db : DB) (tbl : String) : List PartitionRow :=
  match assocFind tbl db.partitions with
  | some t => t.rows
  | none => []

/-- One character of the sanitizing transform of `_store_message_sync`:
`user_id.replace('-', '_').replace('@', '_').replace('.', '_')`.  The three
sequential replacements never touch each other's output, so they equal a
single character map. -/
def sanitizeChar (c : Char) : Char :=
  if c = '-' ∨ c = '@' ∨ c = '.' then '_' else c

/-- `safe_user_id = user_id.replace('-','_').replace('@','_').replace('.','_')`. -/
def safe_user_id (uid : String) : String :=
  String.mk (uid.data.map sanitizeChar)

/-- `user_table = f"user_messages_{safe_user_id}"`. -/
def user_table_name (uid : String) : String :=
  "user_messages_" ++ safe_user_id uid

/-- Counts maximal runs of non-whitespace characters: the length of
Python's `content.split()`. -/
def countWordsAux : List Char → Bool → Nat
  | [], _ => 0
  | c :: rest, inWord =>
      if c.isWhitespace then countWordsAux rest false
      else (if inWord then 0 else 1) + countWordsAux rest true

/-- `word_count = len(content.split())`. -/
def word_count (content : String) : Nat :=
  countWordsAux content.data false

/-- The foreign-key check `FOREIGN KEY (reply_to_id) REFERENCES messages(id)`
performed by SQLite (with `PRAGMA foreign_keys = ON`) on the ledger insert.
SQLite validates an immediate foreign key at the END of the statement, when
the freshly inserted row is already visible, so a NULL reference passes and
a non-NULL reference must match an existing `id` OR the id `mid` that the
insert itself assigns (a self-referencing row commits). -/
def replyOk (reply_to_id : Option Nat) (mid : Nat)
    (messages : List MessageRow) : Bool :=
  match reply_to_id with
  | none => true
  | some r => r == mid || messages.any (fun m => m.id == r)

/-- A character SQLite's lexer accepts inside an unquoted identifier
(its `IdChar`): ASCII alphanumerics, the underscore, the dollar sign, and
every code point of 0x80 and above. -/
def isIdentChar (ch : Char) : Bool :=
  ch.isAlphanum || ch == '_' || ch == '$' || decide (128 ≤ ch.val.toNat)

/-- Whether `f"user_messages_{safe_user_id}"`, interpolated verbatim into
the partition CREATE TABLE and INSERT statements, parses as one unquoted
identifier.  The fixed prefix consists of identifier characters, so the
statements are well-formed exactly when every character of the sanitized
user id is an identifier character; otherwise SQLite raises an
OperationalError on the f-string statement. -/
def identOk (s : String) : Bool :=
  s.data.all isIdentChar

/-- `INSERT OR IGNORE INTO guilds (guild_id, guild_name, last_activity)`;
`created_at` takes its `CURRENT_TIMESTAMP` default. -/
def ensure_guild (guild_id : String) (now : Int) (db : DB) : DB :=
  if db.guilds.any (fun g => g.guild_id == guild_id) then db
  else { db with guilds := db.guilds ++
          [{ guild_id := guild_id, guild_name := "Guild_" ++ guild_id,
             created_at := now, last_activity := now }] }

/-- `UPDATE guilds SET last_activity = ? WHERE guild_id = ?`. -/
def touch_guild (guild_id : String) (now : Int) (db : DB) : DB :=
  { db with guilds := db.guilds.map (fun g =>
      if g.guild_id == guild_id then { g with last_activity := now } else g) }

/-- `INSERT OR IGNORE INTO channels (channel_id, guild_id, channel_name)`. -/
def ensure_channel (channel_id guild_id : String) (now : Int) (db : DB) : DB :=
  if db.channels.any (fun ch => ch.channel_id == channel_id) then db
  else { db with channels := db.channels ++
          [{ channel_id := channel_id, guild_id := guild_id,
             channel_name := "Channel_" ++ channel_id,
             channel_type := none, created_at := now }] }

/-- `INSERT OR IGNORE INTO users (user_id, username, display_name,
first_seen, last_seen)`; `total_messages` takes its DEFAULT 0. -/
def ensure_user (user_id username display_name : String) (now : Int) (db : DB) : DB :=
  if db.users.any (fun u => u.user_id == user_id) then db
  else { db with users := db.users ++
          [{ user_id := user_id, username := username,
             display_name := display_name, first_seen := now,
             last_seen := now, total_messages := 0 }] }

/-- `UPDATE users SET username = ?, display_name = ?, last_seen = ?,
total_messages = total_messages + 1 WHERE user_id = ?`. -/
def touch_user (user_id username display_name : String) (now : Int) (db : DB) : DB :=
  { db with users := db.users.map (fun u =>
      if u.user_id == user_id then
        { u with username := username, display_name := display_name,
                 last_seen := now, total_messages := u.total_messages + 1 }
      else u) }

/-- `CREATE TABLE IF NOT EXISTS {user_table} (...)`. -/
def ensure_partition (tbl : String) (db : DB) : DB :=
  if (assocFind tbl db.partitions).isSome then db
  else { db with partitions := db.partitions ++ [(tbl, { next_id := 1, rows := [] })] }

/-- `INSERT INTO {user_table} (message_id, guild_id, channel_id, content,
timestamp, word_count, reply_to_id) VALUES (...)`. -/
def insert_partition_row (tbl : String) (message_id : Nat)
    (guild_id channel_id content : String) (now : Int) (wc : Nat)
    (reply_to_id : Option Nat) (db : DB) : DB :=
  { db with partitions := assocModify tbl (fun t =>
      { next_id := t.next_id + 1,
        rows := t.rows ++
          [{ id := t.next_id, message_id := message_id, guild_id := guild_id,
             channel_id := channel_id, content := content, timestamp := now,
             word_count := wc, reply_to_id := reply_to_id }] }) db.partitions }

/-- `_store_message_sync` (and its async wrapper `store_message`), translated
statement by statement.  The returned pair is (database after the call,
value returned to the caller).  The Python function has no `return`
statement, so the caller receives `None` (here `none`) on every path.  With
`PRAGMA foreign_keys = ON` two statements can fail: the ledger INSERT
raises IntegrityError when `reply_to_id` matches neither an existing ledger
id nor the id the insert itself assigns (SQLite checks the constraint at
statement end), and the partition `CREATE TABLE`/`INSERT`, whose table name
is interpolated into an f-string, raise OperationalError when the sanitized
user id contains a character SQLite's lexer rejects in an unquoted
identifier.  In either case the `except` branch runs `conn.rollback()`,
prints the error and falls through, so the whole state reverts and the
call still returns `None`. -/
def store_message (guild_id channel_id user_id username display_name
    content message_type : String) (reply_to_id : Option Nat) (now : Int)
    (db : DB) : DB × Option Nat :=
  let db1 := ensure_guild guild_id now db
  let db2 := touch_guild guild_id now db1
  let db3 := ensure_channel channel_id guild_id now db2
  let db4 := ensure_user user_id username display_name now db3
  let db5 := touch_user user_id username display_name now db4
  let wc := word_count content
  let mid := db5.next_message_id
  if replyOk reply_to_id mid db5.messages then
    let db6 := { db5 with
      messages := db5.messages ++
        [{ id := mid, user_id := user_id, guild_id := guild_id,
           channel_id := channel_id, content := content, timestamp := now,
           message_type := message_type, reply_to_id := reply_to_id,
           edited_at := none, word_count := wc }],
      next_message_id := mid + 1 }
    let tbl := user_table_name user_id
    if identOk (safe_user_id user_id) then
      let db7 := ensure_partition tbl db6
      let db8 := insert_partition_row tbl mid guild_id channel_id content now
                   wc reply_to_id db7
      (db8, none)
    else
      (db, none)
  else
    (db, none)

/-- One row of `_get_recent_context_sync`'s SELECT: the projected columns of
`messages m JOIN users u ON m.user_id = u.user_id`. -/
structure CtxRow where
  user_id : String
  username : String
  display_name : String
  content : String
  timestamp : Int
  message_type : String
  word_count : Nat
  reply_to_id : Option Nat
deriving DecidableEq

/-- `ORDER BY m.timestamp DESC`: row `a` may precede row `b`. -/
def ctxGe (a b : CtxRow) : Prop := b.timestamp ≤ a.timestamp

instance : DecidableRel ctxGe := fun a b => Int.decLe b.timestamp a.timestamp

instance : IsTotal CtxRow ctxGe := ⟨fun a b => le_total b.timestamp a.timestamp⟩

instance : IsTrans CtxRow ctxGe :=
  ⟨fun _ _ _ h1 h2 => le_trans h2 h1⟩

/-- The JOIN plus WHERE clause of `_get_recent_context_sync`: the messages of
the requested guild and channel newer than `since`, joined with their
author's `users` row. -/
def recentWindow (guild_id channel_id : String) (since : Int) (db : DB) :
    List CtxRow :=
  db.messages.filterMap (fun m =>
    match db.users.find? (fun u => u.user_id == m.user_id) with
    | some u =>
        if m.guild_id == guild_id && m.channel_id == channel_id &&
            decide (since < m.timestamp) then
          some { user_id := m.user_id, username := u.username,
                 display_name := u.display_name, content := m.content,
                 timestamp := m.timestamp, message_type := m.message_type,
                 word_count := m.word_count, reply_to_id := m.reply_to_id }
        else none
    | none => none)

/-- `_get_recent_context_sync`: `since = utcnow() - timedelta(hours=hours)`,
WHERE guild/channel/timestamp, `ORDER BY m.timestamp DESC LIMIT ?`, then
`list(reversed(messages))` for chronological order. -/
def get_recent_context (guild_id channel_id : String) (hours : Int)
    (limit : Nat) (now : Int) (db : DB) : List CtxRow :=
  let since := now - hours * 3600
  (((recentWindow guild_id channel_id since db).insertionSort ctxGe).take
      limit).reverse

/-- `ORDER BY created_at ASC` on `context_summaries`. -/
def sumLe (a b : SummaryRow) : Prop := a.created_at ≤ b.created_at

instance : DecidableRel sumLe := fun a b => Int.decLe a.created_at b.created_at

instance : IsTotal SummaryRow sumLe := ⟨fun a b => le_total a.created_at b.created_at⟩

instance : IsTrans SummaryRow sumLe :=
  ⟨fun _ _ _ h1 h2 => le_trans h1 h2⟩

/-- The WHERE clause of `_get_conversation_context_sync`: summaries of the
guild and channel with `created_at > since`. -/
def summaryWindow (guild_id channel_id : String) (since : Int) (db : DB) :
    List SummaryRow :=
  db.summaries.filter (fun s =>
    s.guild_id == guild_id && s.channel_id == channel_id &&
      decide (since < s.created_at))

/-- `f"**{start_time} - {end_time}** ({msg_count} messages):"`. -/
def summaryHeaderLine (s : SummaryRow) : String :=
  "**" ++ toString s.start_time ++ " - " ++ toString s.end_time ++ "** (" ++
    toString s.message_count ++ " messages):"

/-- The loop of `_get_conversation_context_sync`: for each summary row it
appends the time-range line, the summary text and a `---` delimiter. -/
def buildParts : List SummaryRow → List String
  | [] => []
  | s :: rest => summaryHeaderLine s :: s.summary :: "---" :: buildParts rest

/-- `_get_conversation_context_sync`: fetch the in-window summaries in
ascending `created_at` order; with none, return the sentinel string;
otherwise join the header and the per-summary parts with newlines. -/
def get_conversation_context (guild_id channel_id : String)
    (days_back now : Int) (db : DB) : String :=
  let since := now - days_back * 86400
  let summaries :=
    (summaryWindow guild_id channel_id since db).insertionSort sumLe
  if summaries.isEmpty then "No recent conversation context available."
  else
    String.intercalate "\n"
      ("## Recent Conversation Context\n" :: buildParts summaries)

/-- `SELECT COUNT(*) FROM messages WHERE user_id = ? AND guild_id = ?`. -/
def messageCountFor (db : DB) (user_id guild_id : String) : Nat :=
  (db.messages.filter (fun m =>
    m.user_id == user_id && m.guild_id == guild_id)).length

/-- Whether the `users` table registers this user id. -/
def userExists (db : DB) (user_id : String) : Bool :=
  db.users.any (fun u => u.user_id == user_id)

/-- Whether the `guilds` table registers this guild id. -/
def guildExists (db : DB) (guild_id : String) : Bool :=
  db.guilds.any (fun g => g.guild_id == guild_id)

/-- `_update_user_profile_sync`: count the user's ledger messages in the
guild, then `INSERT OR REPLACE INTO user_profiles` keyed by the UNIQUE
(user_id, guild_id) constraint — REPLACE removes every conflicting row and
inserts the fresh one (the surrogate `id` column is read by no query and is
not modelled).  Topics are stored as `json.dumps(common_topics) if
common_topics else None`, so `None` and `[]` both store NULL.  With
`PRAGMA foreign_keys = ON`, an unregistered user or guild makes the insert
fail; the `except` branch rolls back and swallows the error, leaving the
database unchanged.  The `username` parameter is unused, as in the source. -/
def update_user_profile (user_id guild_id username : String)
    (personality_notes : Option String) (common_topics : Option (List String))
    (interaction_style : Option String) (now : Int) (db : DB) : DB :=
  if userExists db user_id && guildExists db guild_id then
    let mc := messageCountFor db user_id guild_id
    let storedTopics : Option (List String) :=
      match common_topics with
      | some l => if l.isEmpty then none else some l
      | none => none
    { db with profiles :=
        (db.profiles.filter (fun p =>
          !(p.user_id == user_id && p.guild_id == guild_id))) ++
        [{ user_id := user_id, guild_id := guild_id,
           personality_notes := personality_notes,
           common_topics := storedTopics,
           interaction_style := interaction_style,
           message_count := mc, analysis_date := now }] }
  else db

/-- The dictionary `_get_user_profile_sync` returns: `users` columns plus
the LEFT-JOINed `user_profiles` columns. -/
structure ProfileView where
  username : String
  display_name : String
  total_messages : Nat
  last_seen : Int
  personality_notes : Option String
  common_topics : List String
  interaction_style : Option String
  guild_message_count : Nat
deriving DecidableEq

/-- `_get_user_profile_sync`: `users LEFT JOIN user_profiles` on
(user_id, guild_id); `None` when the user itself is unknown; profile
columns come back NULL (here defaults) when no profile row exists;
`common_topics` is `json.loads(row) if row else []` and
`guild_message_count` is `row or 0`. -/
def get_user_profile (user_id guild_id : String) (db : DB) :
    Option ProfileView :=
  match db.users.find? (fun u => u.user_id == user_id) with
  | none => none
  | some u =>
      let p := db.profiles.find? (fun p =>
        p.user_id == user_id && p.guild_id == guild_id)
      some { username := u.username, display_name := u.display_name,
             total_messages := u.total_messages, last_seen := u.last_seen,
             personality_notes :=
               match p with | some pr => pr.personality_notes | none => none,
             common_topics :=
               match p with
               | some pr => pr.common_topics.getD []
               | none => [],
             interaction_style :=
               match p with | some pr => pr.interaction_style | none => none,
             guild_message_count :=
               match p with | some pr => pr.message_count | none => 0 }

/-- `ORDER BY timestamp DESC` on a partition table. -/
def partGe (a b : PartitionRow) : Prop := b.timestamp ≤ a.timestamp

instance : DecidableRel partGe := fun a b => Int.decLe b.timestamp a.timestamp

instance : IsTotal PartitionRow partGe :=
  ⟨fun a b => le_total b.timestamp a.timestamp⟩

instance : IsTrans PartitionRow partGe :=
  ⟨fun _ _ _ h1 h2 => le_trans h2 h1⟩

/-- `_get_user_messages_sync`: read the user's partition table only;
an absent table yields `[]`.  A guild condition is added only when
`if guild_id:` is truthy (not None, not the empty string) and a recency
condition only when `if hours:` is truthy (not None, not 0); then
`ORDER BY timestamp DESC LIMIT ?` and `list(reversed(...))`. -/
def get_user_messages (user_id : String) (guild_id : Option String)
    (limit : Nat) (hours : Option Int) (now : Int) (db : DB) :
    List PartitionRow :=
  match assocFind (user_table_name user_id) db.partitions with
  | none => []
  | some t =>
      let rows := t.rows
      let rows :=
        match guild_id with
        | some g => if g == "" then rows else rows.filter (fun r => r.guild_id == g)
        | none => rows
      let rows :=
        match hours with
        | some h =>
            if h == 0 then rows
            else rows.filter (fun r => decide (now - h * 3600 < r.timestamp))
        | none => rows
      (((rows.insertionSort partGe).take limit).reverse)

/-- `_cleanup_old_data_sync`: delete ledger rows older than
`utcnow() - timedelta(days=days_to_keep)`, delete rows older than the same
cutoff from every `user_messages_%` table, and delete `context_summaries`
rows older than the hard-coded 90-day horizon. -/
def cleanup_old_data (days_to_keep : Int) (now : Int) (db : DB) : DB :=
  let cutoff := now - days_to_keep * 86400
  let db := { db with
    messages := db.messages.filter (fun m => !decide (m.timestamp < cutoff)) }
  let db := { db with
    partitions := db.partitions.map (fun (p : String × PartitionTable) =>
      (p.1, { next_id := p.2.next_id,
              rows := p.2.rows.filter (fun r =>
                !decide (r.timestamp < cutoff)) })) }
  let summaryCutoff := now - 90 * 86400
  { db with
    summaries := db.summaries.filter (fun s =>
      !decide (s.created_at < summaryCutoff)) }

@[simp] theorem ensure_guild_messages (g : String) (now : Int) (db : DB) :
    (ensure_guild g now db).messages = db.messages := by
  unfold ensure_guild; split <;> rfl

@[simp] theorem ensure_guild_users (g : String) (now : Int) (db : DB) :
    (ensure_guild g now db).users = db.users := by
  unfold ensure_guild; split <;> rfl

@[simp] theorem ensure_guild_partitions (g : String) (now : Int) (db : DB) :
    (ensure_guild g now db).partitions = db.partitions := by
  unfold ensure_guild; split <;> rfl

@[simp] theorem ensure_guild_next (g : String) (now : Int) (db : DB) :
    (ensure_guild g now db).next_message_id = db.next_message_id := by
  unfold ensure_guild; split <;> rfl

@[simp] theorem touch_guild_messages (g : String) (now : Int) (db : DB) :
    (touch_guild g now db).messages = db.messages := rfl

@[simp] theorem touch_guild_users (g : String) (now : Int) (db : DB) :
    (touch_guild g now db).users = db.users := rfl

@[simp] theorem touch_guild_partitions (g : String) (now : Int) (db : DB) :
    (touch_guild g now db).partitions = db.partitions := rfl

@[simp] theorem touch_guild_next (g : String) (now : Int) (db : DB) :
    (touch_guild g now db).next_message_id = db.next_message_id := rfl

@[simp] theorem ensure_channel_messages (c g : String) (now : Int) (db : DB) :
    (ensure_channel c g now db).messages = db.messages := by
  unfold ensure_channel; split <;> rfl

@[simp] theorem ensure_channel_users (c g : String) (now : Int) (db : DB) :
    (ensure_channel c g now db).users = db.users := by
  unfold ensure_channel; split <;> rfl

@[simp] theorem ensure_channel_partitions (c g : String) (now : Int) (db : DB) :
    (ensure_channel c g now db).partitions = db.partitions := by
  unfold ensure_channel; split <;> rfl

@[simp] theorem ensure_channel_next (c g : String) (now : Int) (db : DB) :
    (ensure_channel c g now db).next_message_id = db.next_message_id := by
  unfold ensure_channel; split <;> rfl

@[simp] theorem ensure_user_messages (u un dn : String) (now : Int) (db : DB) :
    (ensure_user u un dn now db).messages = db.messages := by
  unfold ensure_user; split <;> rfl

@[simp] theorem ensure_user_partitions (u un dn : String) (now : Int) (db : DB) :
    (ensure_user u un dn now db).partitions = db.partitions := by
  unfold ensure_user; split <;> rfl

@[simp] theorem ensure_user_next (u un dn : String) (now : Int) (db : DB) :
    (ensure_user u un dn now db).next_message_id = db.next_message_id := by
  unfold ensure_user; split <;> rfl

@[simp] theorem touch_user_messages (u un dn : String) (now : Int) (db : DB) :
    (touch_user u un dn now db).messages = db.messages := rfl

@[simp] theorem touch_user_partitions (u un dn : String) (now : Int) (db : DB) :
    (touch_user u un dn now db).partitions = db.partitions := rfl

@[simp] theorem touch_user_next (u un dn : String) (now : Int) (db : DB) :
    (touch_user u un dn now db).next_message_id = db.next_message_id := rfl

/-- On a failing reply foreign-key check, `_store_message_sync` rolls the
transaction back and returns normally: the state reverts and the caller
still receives `None`. -/
theorem store_message_replyFail (g c u un dn content mt : String)
    (rto : Option Nat) (now : Int) (db : DB)
    (h : replyOk rto db.next_message_id db.messages = false) :
    store_message g c u un dn content mt rto now db = (db, none) := by
  unfold store_message
  simp [h]

/-- Reference time for the retention scenario: 100 days (in seconds). -/
def retentionNow : Int := 100 * 86400

/-- A ledger row of the retention scenario, aged `age` days at
`retentionNow`, with ledger id `i`, authored by user `u` in guild `g`,
channel `c`. -/
def agedMessage (i : Nat) (age : Int) : MessageRow :=
  { id := i, user_id := "u", guild_id := "g", channel_id := "c",
    content := "m", timestamp := retentionNow - age * 86400,
    message_type := "user", reply_to_id := none, edited_at := none,
    word_count := 1 }

/-- The partition mirror of `agedMessage i age`. -/
def agedPartRow (i : Nat) (age : Int) : PartitionRow :=
  { id := i, message_id := i, guild_id := "g", channel_id := "c",
    content := "m", timestamp := retentionNow - age * 86400,
    word_count := 1, reply_to_id := none }

/-- A summary of the retention scenario created `age` days before
`retentionNow`. -/
def agedSummary (i : Nat) (age : Int) : SummaryRow :=
  { id := i, guild_id := "g", channel_id := "c", summary := "s",
    message_count := 1, start_time := 0, end_time := 0,
    created_at := retentionNow - age * 86400 }

/-- The database of the retention scenario: ledger and partition rows aged
5, 31 and 100 days, and summaries aged 95, 80 and 90 days. -/
def retentionDB : DB :=
  { emptyDB with
    users := [{ user_id := "u", username := "u", display_name := "u",
                first_seen := 0, last_seen := 0, total_messages := 3 }],
    messages := [agedMessage 1 5, agedMessage 2 31, agedMessage 3 100],
    next_message_id := 4,
    partitions := [(user_table_name "u",
      { next_id := 4,
        rows := [agedPartRow 1 5, agedPartRow 2 31, agedPartRow 3 100] })],
    summaries := [agedSummary 1 95, agedSummary 2 80, agedSummary 3 90] }

/-- C2: the claim that two distinct user ids differing only in characters
requiring sanitization map to distinct partition table names is FALSE of
the code: the transform of `_store_message_sync` maps `-`, `@` and `.` all
to `_`, so the distinct ids `a.b` and `a-b` collide on the single
partition table `user_messages_a_b`. -/
theorem sanitize_collision_cex :
    safe_user_id "a.b" = safe_user_id "a-b" ∧ "a.b" ≠ "a-b" ∧
    user_table_name "a.b" = "user_messages_a_b" ∧
    user_table_name "a-b" = "user_messages_a_b" := by
  decide

/-- C4 (counterexample): with `PRAGMA foreign_keys = ON` and the declared
`FOREIGN KEY (reply_to_id) REFERENCES messages(id)`, a `storeMessage` whose
`reply_to_id` (99) is absent from the ledger does NOT succeed with a null
reference: nothing is persisted in the ledger or in the author's
partition. -/
theorem dangling_reply_not_persisted_cex :
    (store_message "g2" "c2" "u2" "bob" "Bob" "hello" "user" (some 99) 50
        emptyDB).1.messages = [] ∧
    partRows (store_message "g2" "c2" "u2" "bob" "Bob" "hello" "user"
        (some 99) 50 emptyDB).1 (user_table_name "u2") = [] := by
  decide

/-- C4 (amended): a `reply_to_id` referencing a message id absent from the
ledger fails the foreign-key check of the ledger INSERT — unless that id
happens to be the very id the insert assigns to the new row, since SQLite
checks the constraint at statement end (that self-referencing case commits
and is the success path of `store_message_effects`).  In the failing case
the whole store is rolled back (the error being swallowed), so the message
is persisted in neither the ledger nor the author's partition — the
dangling reference is never coerced to null. -/
theorem dangling_reply_store_dropped (g c u un dn content mt : String)
    (r : Nat) (now : Int) (db : DB)
    (h1 : db.messages.any (fun m => m.id == r) = false)
    (h2 : r ≠ db.next_message_id) :
    (store_message g c u un dn content mt (some r) now db).1.messages =
      db.messages ∧
    partRows (store_message g c u un dn content mt (some r) now db).1
        (user_table_name u) =
      partRows db (user_table_name u) := by
  have hfail : replyOk (some r) db.next_message_id db.messages = false := by
    simp only [replyOk]
    rw [h1]
    simp [h2]
  rw [store_message_replyFail g c u un dn content mt (some r) now db hfail]
  exact ⟨rfl, rfl⟩

/-- Witness for `dangling_reply_store_dropped` at a concrete input. -/
theorem dangling_reply_store_dropped_witness :
    ((emptyDB.messages.any (fun m => m.id == 99)) = false) ∧
    (99 ≠ emptyDB.next_message_id) ∧
    ((store_message "g2" "c2" "u2" "bob" "Bob" "hello" "user" (some 99) 50
        emptyDB).1.messages = emptyDB.messages ∧
      partRows (store_message "g2" "c2" "u2" "bob" "Bob" "hello" "user"
          (some 99) 50 emptyDB).1 (user_table_name "u2") =
        partRows emptyDB (user_table_name "u2")) :=
  ⟨by decide, by decide,
   dangling_reply_store_dropped "g2" "c2" "u2" "bob" "Bob" "hello" "user"
     99 50 emptyDB (by decide) (by decide)⟩

/-- C9 (counterexample): a successful `storeMessage` on a fresh database
inserts the ledger row with id 1, yet the value handed back to the caller
is `None` (the Python function has no `return` statement), not that
MessageId. -/
theorem store_returns_none_cex :
    (store_message "g3" "c3" "u3" "eve" "Eve" "hi there" "user" none 100
        emptyDB).1.messages.map MessageRow.id = [1] ∧
    (store_message "g3" "c3" "u3" "eve" "Eve" "hi there" "user" none 100
        emptyDB).2 = none := by
  decide

/-- C9 (amended): `storeMessage` computes the new ledger id internally
(it is used for the partition mirror row) but returns `None` to its caller
on every call, successful or failing. -/
theorem store_message_returns_none (g c u un dn content mt : String)
    (rto : Option Nat) (now : Int) (db : DB) :
    (store_message g c u un dn content mt rto now db).2 = none := by
  unfold store_message
  dsimp only
  split
  · split <;> rfl
  · rfl

/-- C8: retention scenario.  With messages aged {5, 31, 100} days and a raw
horizon of 30 days, `cleanup` keeps exactly the 5-day-old message, in both
the ledger and the author's partition; the 95-day-old summary is deleted
(95 > 90) while the 80- and 90-day-old summaries survive the hard-coded
90-day summary horizon. -/
theorem cleanup_retention_scenario :
    (cleanup_old_data 30 retentionNow retentionDB).messages =
      [agedMessage 1 5] ∧
    partRows (cleanup_old_data 30 retentionNow retentionDB)
        (user_table_name "u") = [agedPartRow 1 5] ∧
    (cleanup_old_data 30 retentionNow retentionDB).summaries =
      [agedSummary 2 80, agedSummary 3 90] := by
  decide

/-- C10: `getUserMessages` treats `hours = 0` exactly like the `None`
default (Python `if hours:` is falsy at 0) and a `guild_id` equal to the
empty string exactly like the `None` default (`if guild_id:` is falsy at
the empty string): neither installs a filter. -/
theorem get_user_messages_falsy_filters (u : String) (g : Option String)
    (lim : Nat) (hrs : Option Int) (now : Int) (db : DB) :
    get_user_messages u g lim (some 0) now db =
      get_user_messages u g lim none now db ∧
    get_user_messages u (some "") lim hrs now db =
      get_user_messages u none lim hrs now db := by
  constructor <;>
    · unfold get_user_messages
      cases assocFind (user_table_name u) db.partitions <;> rfl

/-- `find?` on an INSERT-OR-REPLACE result: the conflicting rows were
filtered away, so the lookup hits the freshly appended row. -/
theorem find_filter_not_append {α : Type} (p : α → Bool) (l : List α) (x : α)
    (hx : p x = true) :
    ((l.filter fun a => !(p a)) ++ [x]).find? p = some x := by
  rw [List.find?_append]
  have h1 : (l.filter fun a => !(p a)).find? p = none := by
    rw [List.find?_eq_none]
    intro a ha
    have h2 := (List.mem_filter.mp ha).2
    simp only [Bool.not_eq_true'] at h2
    simp [h2]
  rw [h1]
  simp [List.find?_cons, hx]

/-- After INSERT OR REPLACE, exactly one row carries the key. -/
theorem filter_filter_not_append {α : Type} (p : α → Bool) (l : List α)
    (x : α) (hx : p x = true) :
    (((l.filter fun a => !(p a)) ++ [x]).filter p) = [x] := by
  rw [List.filter_append]
  have h1 : (l.filter fun a => !(p a)).filter p = [] := by
    rw [List.filter_filter]
    simp
  rw [h1]
  simp [hx]

/-- C7: round-trip of the Profile Store.  For a registered user and guild,
`upsertProfile` followed by `getProfile` returns exactly the notes, topics
and style just written; the stored `message_count` is the live count of the
user's ledger messages in that guild at write time (the operation takes no
caller-supplied count); and the upsert leaves exactly one profile row for
the (user_id, guild_id) key, whatever was there before. -/
theorem profile_roundtrip (db : DB) (uid gid uname : String)
    (notes : Option String) (topics : List String) (style : Option String)
    (now : Int) (hu : userExists db uid = true)
    (hg : guildExists db gid = true) :
    ∃ pv : ProfileView,
      get_user_profile uid gid
          (update_user_profile uid gid uname notes (some topics) style now db)
        = some pv ∧
      pv.personality_notes = notes ∧
      pv.common_topics = topics ∧
      pv.interaction_style = style ∧
      pv.guild_message_count = messageCountFor db uid gid ∧
      ((update_user_profile uid gid uname notes (some topics) style now
          db).profiles.filter
        (fun p => p.user_id == uid && p.guild_id == gid)).length = 1 := by
  have hcond : (userExists db uid && guildExists db gid) = true := by
    rw [hu, hg]; rfl
  have hv : ∃ v, db.users.find? (fun w => w.user_id == uid) = some v := by
    have h2 : (db.users.find? (fun w => w.user_id == uid)).isSome :=
      List.find?_isSome.mpr (by simpa using List.any_eq_true.mp hu)
    exact Option.isSome_iff_exists.mp h2
  obtain ⟨v, hvfind⟩ := hv
  unfold update_user_profile
  rw [hcond]
  rw [if_pos rfl]
  unfold get_user_profile
  dsimp only
  rw [hvfind]
  rw [find_filter_not_append
    (fun p => p.user_id == uid && p.guild_id == gid) db.profiles _
    (by simp)]
  refine ⟨_, rfl, rfl, ?_, rfl, rfl, ?_⟩
  · cases topics <;> simp
  · rw [filter_filter_not_append
      (fun p => p.user_id == uid && p.guild_id == gid) db.profiles _
      (by simp)]
    rfl

/-- Witness for `profile_roundtrip`: one registered user and guild, two
ledger messages in the guild. -/
theorem profile_roundtrip_witness :
    userExists
        { emptyDB with
          guilds := [{ guild_id := "g", guild_name := "G", created_at := 0,
                       last_activity := 0 }],
          users := [{ user_id := "u", username := "n", display_name := "d",
                      first_seen := 0, last_seen := 0, total_messages := 2 }],
          messages := [agedMessage 1 5, agedMessage 2 31],
          next_message_id := 3 } "u" = true ∧
    guildExists
        { emptyDB with
          guilds := [{ guild_id := "g", guild_name := "G", created_at := 0,
                       last_activity := 0 }],
          users := [{ user_id := "u", username := "n", display_name := "d",
                      first_seen := 0, last_seen := 0, total_messages := 2 }],
          messages := [agedMessage 1 5, agedMessage 2 31],
          next_message_id := 3 } "g" = true ∧
    ∃ pv : ProfileView,
      get_user_profile "u" "g"
          (update_user_profile "u" "g" "n" (some "quiet") (some ["lean"])
            (some "dry") 7
            { emptyDB with
              guilds := [{ guild_id := "g", guild_name := "G",
                           created_at := 0, last_activity := 0 }],
              users := [{ user_id := "u", username := "n",
                          display_name := "d", first_seen := 0,
                          last_seen := 0, total_messages := 2 }],
              messages := [agedMessage 1 5, agedMessage 2 31],
              next_message_id := 3 })
        = some pv ∧
      pv.personality_notes = some "quiet" ∧
      pv.common_topics = ["lean"] ∧
      pv.interaction_style = some "dry" ∧
      pv.guild_message_count =
        messageCountFor
          { emptyDB with
            guilds := [{ guild_id := "g", guild_name := "G", created_at := 0,
                         last_activity := 0 }],
            users := [{ user_id := "u", username := "n", display_name := "d",
                        first_seen := 0, last_seen := 0,
                        total_messages := 2 }],
            messages := [agedMessage 1 5, agedMessage 2 31],
            next_message_id := 3 } "u" "g" ∧
      ((update_user_profile "u" "g" "n" (some "quiet") (some ["lean"])
          (some "dry") 7
          { emptyDB with
            guilds := [{ guild_id := "g", guild_name := "G", created_at := 0,
                         last_activity := 0 }],
            users := [{ user_id := "u", username := "n", display_name := "d",
                        first_seen := 0, last_seen := 0,
                        total_messages := 2 }],
            messages := [agedMessage 1 5, agedMessage 2 31],
            next_message_id := 3 }).profiles.filter
        (fun p => p.user_id == "u" && p.guild_id == "g")).length = 1 :=
  ⟨by decide, by decide,
   profile_roundtrip _ "u" "g" "n" (some "quiet") ["lean"] (some "dry") 7
     (by decide) (by decide)⟩

/-- Each summary of the list contributes its text and its time-range line
to the parts built by the loop of `_get_conversation_context_sync`. -/
theorem buildParts_mem (s : SummaryRow) :
    ∀ l : List SummaryRow, s ∈ l →
      s.summary ∈ buildParts l ∧ summaryHeaderLine s ∈ buildParts l := by
  intro l hs
  induction l with
  | nil => cases hs
  | cons a rest ih =>
      rcases List.mem_cons.mp hs with h | h
      · subst h
        exact ⟨by simp [buildParts], by simp [buildParts]⟩
      · have h2 := ih h
        exact ⟨by simp [buildParts, h2.1], by simp [buildParts, h2.2]⟩

/-- C6: `getConversationContext` returns the fixed non-empty sentinel when
no summaries fall in the lookback window; otherwise it returns the
newline-join of the fixed header and, for the in-window summaries arranged
in ascending `created_at` order, each summary's time-range/message-count
line followed by its text — so every in-window summary's text and covered
range appear in the output. -/
theorem conversation_context_spec (g c : String) (days_back now : Int)
    (db : DB) :
    (summaryWindow g c (now - days_back * 86400) db = [] →
      get_conversation_context g c days_back now db =
        "No recent conversation context available." ∧
      get_conversation_context g c days_back now db ≠ "") ∧
    (summaryWindow g c (now - days_back * 86400) db ≠ [] →
      List.Sorted sumLe
        ((summaryWindow g c (now - days_back * 86400) db).insertionSort
          sumLe) ∧
      ((summaryWindow g c (now - days_back * 86400) db).insertionSort
          sumLe).Perm
        (summaryWindow g c (now - days_back * 86400) db) ∧
      get_conversation_context g c days_back now db =
        String.intercalate "\n"
          ("## Recent Conversation Context\n" ::
            buildParts
              ((summaryWindow g c (now - days_back * 86400) db).insertionSort
                sumLe)) ∧
      ∀ s ∈ summaryWindow g c (now - days_back * 86400) db,
        s.summary ∈
          buildParts
            ((summaryWindow g c (now - days_back * 86400) db).insertionSort
              sumLe) ∧
        summaryHeaderLine s ∈
          buildParts
            ((summaryWindow g c (now - days_back * 86400) db).insertionSort
              sumLe)) := by
  constructor
  · intro h
    have he : get_conversation_context g c days_back now db =
        "No recent conversation context available." := by
      simp [get_conversation_context, h]
    refine ⟨he, ?_⟩
    rw [he]
    decide
  · intro h
    have hne :
        ¬ (((summaryWindow g c (now - days_back * 86400) db).insertionSort
            sumLe).isEmpty = true) := by
      rw [List.isEmpty_iff]
      intro hnil
      have hp := List.perm_insertionSort sumLe
        (summaryWindow g c (now - days_back * 86400) db)
      rw [hnil] at hp
      exact h hp.symm.eq_nil
    refine ⟨List.sorted_insertionSort sumLe _,
      List.perm_insertionSort sumLe _, ?_, ?_⟩
    · unfold get_conversation_context
      rw [if_neg hne]
    · intro s hs
      exact buildParts_mem s _ ((List.mem_insertionSort sumLe).mpr hs)

/-- Every row produced by the JOIN+WHERE of `_get_recent_context_sync` is
inside the time window and projects a ledger message of the requested guild
and channel. -/
theorem mem_recentWindow (g c : String) (since : Int) (db : DB) (x : CtxRow)
    (hx : x ∈ recentWindow g c since db) :
    since < x.timestamp ∧
    ∃ m ∈ db.messages, m.guild_id = g ∧ m.channel_id = c ∧
      since < m.timestamp ∧ x.timestamp = m.timestamp ∧
      x.content = m.content ∧ x.user_id = m.user_id ∧
      x.message_type = m.message_type ∧ x.word_count = m.word_count ∧
      x.reply_to_id = m.reply_to_id := by
  unfold recentWindow at hx
  rw [List.mem_filterMap] at hx
  obtain ⟨m, hm, hfm⟩ := hx
  cases hfind : db.users.find? (fun u => u.user_id == m.user_id) with
  | none =>
      rw [hfind] at hfm
      simp at hfm
  | some u =>
      rw [hfind] at hfm
      dsimp only at hfm
      by_cases hcond : (m.guild_id == g && m.channel_id == c &&
          decide (since < m.timestamp)) = true
      · rw [if_pos hcond] at hfm
        obtain rfl := Option.some.inj hfm
        simp only [Bool.and_eq_true, beq_iff_eq, decide_eq_true_eq] at hcond
        exact ⟨hcond.2, m, hm, hcond.1.1, hcond.1.2, hcond.2,
          rfl, rfl, rfl, rfl, rfl, rfl⟩
      · rw [if_neg hcond] at hfm
        simp at hfm

/-- C5: `getRecentContext` returns at most `limit` rows; every returned row
lies strictly inside the last `hours` hours and projects a ledger message
of channel `c` in guild `g`; the result is sorted ascending by timestamp;
and it consists of the most recent rows of the window — any in-window row
left out is no newer than every returned row (most-recent-N selected by
descending timestamp, then reversed to chronological order). -/
theorem recent_context_spec (g c : String) (hours : Int) (limit : Nat)
    (now : Int) (db : DB) :
    (get_recent_context g c hours limit now db).length ≤ limit ∧
    (∀ x ∈ get_recent_context g c hours limit now db,
      now - hours * 3600 < x.timestamp ∧
      ∃ m ∈ db.messages, m.guild_id = g ∧ m.channel_id = c ∧
        now - hours * 3600 < m.timestamp ∧ x.timestamp = m.timestamp ∧
        x.content = m.content ∧ x.user_id = m.user_id ∧
        x.message_type = m.message_type ∧ x.word_count = m.word_count ∧
        x.reply_to_id = m.reply_to_id) ∧
    List.Pairwise (fun a b : CtxRow => a.timestamp ≤ b.timestamp)
      (get_recent_context g c hours limit now db) ∧
    (∀ y ∈ recentWindow g c (now - hours * 3600) db,
      y ∉ get_recent_context g c hours limit now db →
      ∀ x ∈ get_recent_context g c hours limit now db,
        y.timestamp ≤ x.timestamp) := by
  have hdef : get_recent_context g c hours limit now db =
      (((recentWindow g c (now - hours * 3600) db).insertionSort
        ctxGe).take limit).reverse := rfl
  have hS : List.Pairwise ctxGe
      ((recentWindow g c (now - hours * 3600) db).insertionSort ctxGe) :=
    List.sorted_insertionSort ctxGe _
  refine ⟨?_, ?_, ?_, ?_⟩
  · rw [hdef, List.length_reverse]
    simp [List.length_take]
  · intro x hx
    rw [hdef, List.mem_reverse] at hx
    have hxS := (List.take_sublist _ _).mem hx
    exact mem_recentWindow g c _ db x ((List.mem_insertionSort ctxGe).mp hxS)
  · rw [hdef, List.pairwise_reverse]
    exact hS.sublist (List.take_sublist _ _)
  · intro y hyW hynR x hxR
    rw [hdef, List.mem_reverse] at hxR
    have hynT : y ∉ ((recentWindow g c (now - hours * 3600) db).insertionSort
        ctxGe).take limit := fun hc =>
      hynR (by rw [hdef, List.mem_reverse]; exact hc)
    have hyS : y ∈ (recentWindow g c (now - hours * 3600) db).insertionSort
        ctxGe := (List.mem_insertionSort ctxGe).mpr hyW
    rw [← List.take_append_drop limit
      ((recentWindow g c (now - hours * 3600) db).insertionSort ctxGe)]
      at hyS hS
    have hyDrop : y ∈ ((recentWindow g c (now - hours * 3600)
        db).insertionSort ctxGe).drop limit := by
      rcases List.mem_append.mp hyS with h | h
      · exact absurd h hynT
      · exact h
    exact (List.pairwise_append.mp hS).2.2 x hxR y hyDrop

end RumiBot
